import Mathlib

/-!
# infrastructure-go/main.go

A shallow embedding of the Pulumi program in `infrastructure-go/main.go`.

The program is one closure handed to `pulumi.Run`.  It calls resource
constructors in sequence, returns early on the first constructor error, makes
one export, and passes handles of earlier resources into later ones.  The
embedding keeps that shape:

* a `Context` records the resources registered so far and the exports;
* a resource constructor consults an `Env` (the outcome of the external
  provider SDK call) and either registers the resource or returns an error;
* Go runtime panics (slice index out of range, failed type assertion) are a
  third outcome, distinct from a returned error.
-/

set_option autoImplicit false

namespace InfrastructureGo

/-! ## Go values and `fmt.Sprintf` -/

/-- A Go value travelling through `interface{}`. -/
inductive GoValue where
  | str (s : String)
  | int (n : Int)
  | bool (b : Bool)
  deriving DecidableEq, Repr

/-- The value of a Go `error` that is not nil. -/
structure GoError where
  msg : String
  deriving DecidableEq, Repr

/-- Outcome of a Go call returning `(T, error)`: a value with a nil error, a
non-nil error, or a runtime panic. -/
inductive Result (α : Type) where
  | ok (a : α)
  | error (e : GoError)
  | panic (msg : String)
  deriving DecidableEq, Repr

/-- Dynamic type name printed by `fmt` for a bad verb. -/
def GoValue.typeName : GoValue → String
  | .str _ => "string"
  | .int _ => "int"
  | .bool _ => "bool"

/-- Decimal rendering of a Go `int`. -/
def formatInt (n : Int) : String :=
  match n with
  | .ofNat k => Nat.repr k
  | .negSucc k => "-" ++ Nat.repr (k + 1)

/-- Rendering with the default format (`%v`). -/
def GoValue.default : GoValue → String
  | .str s => s
  | .int n => formatInt n
  | .bool b => if b then "true" else "false"

/-- One operand under one verb.  `%s` accepts strings, `%d` accepts integers,
`%v` accepts everything; a verb that does not fit the operand prints
`%!verb(type=value)`, as `fmt` does.  Only the verbs `s`, `d` and `v` are
modelled; the program uses `s` and `d`. -/
def formatVerb (verb : Char) (a : GoValue) : List Char :=
  match verb, a with
  | 's', .str s => s.toList
  | 'd', .int n => (formatInt n).toList
  | 'v', a => a.default.toList
  | c, a => '%' :: '!' :: c :: '(' :: (a.typeName.toList ++ '=' :: (a.default.toList ++ [')']))

/-- Operands left over when the format is exhausted: `%!(EXTRA type=value, ...)`. -/
def formatExtraArgs : List GoValue → List Char
  | [] => []
  | [a] => a.typeName.toList ++ '=' :: a.default.toList
  | a :: b :: rest =>
      a.typeName.toList ++ '=' :: (a.default.toList ++ ',' :: ' ' :: formatExtraArgs (b :: rest))

/-- What `fmt` appends for unused operands. -/
def formatExtra (args : List GoValue) : List Char :=
  match args with
  | [] => []
  | _ :: _ => "%!(EXTRA ".toList ++ formatExtraArgs args ++ [')']

/-- The formatting loop of `fmt.Sprintf` over the characters of the format. -/
def sprintfChars : List Char → List GoValue → List Char
  | [], args => formatExtra args
  | c :: rest, args =>
      if c = '%' then
        match rest, args with
        | [], _ => "%!(NOVERB)".toList
        | v :: rest', args =>
            if v = '%' then '%' :: sprintfChars rest' args
            else
              match args with
              | [] => '%' :: '!' :: v :: "(MISSING)".toList ++ sprintfChars rest' []
              | a :: args' => formatVerb v a ++ sprintfChars rest' args'
      else c :: sprintfChars rest args

/-- Model of `fmt.Sprintf(format, args...)`. -/
def Sprintf (format : String) (args : List GoValue) : String :=
  String.mk (sprintfChars format.toList args)

/-! ## Package-level variables and constants -/

def publicSubnetCidrs : List String :=
  [ "172.31.0.0/20",
    "172.31.48.0/20" ]

def availabilityZones : List String :=
  [ "eu-central-1a",
    "eu-central-1b" ]

def clusterName : String := "berlin-pug-eks-cluster"
def clusterTag : String := "kubernetes.io/cluster/" ++ clusterName
def albNamespace : String := "aws-lb-controller"
def albServiceAccount : String :=
  "system:serviceaccount:" ++ albNamespace ++ ":aws-lb-controller-serviceaccount"
def ebsServiceAccount : String := "system:serviceaccount:kube-system:ebs-csi-controller-sa"

/-! ## Resources, inputs and the program context -/

/-- The resource constructors the program calls, one kind per Go constructor. -/
inductive Kind where
  | ec2Vpc
  | ec2InternetGateway
  | ec2RouteTable
  | ec2Subnet
  | ec2RouteTableAssociation
  | eksCluster
  | iamRole
  | iamPolicy
  | iamRolePolicyAttachment
  | kubernetesProvider
  | corev1Namespace
  | corev1ServiceAccount
  | helmRelease
  deriving DecidableEq, Repr

/-- Identity of a declared resource: its kind and its name.  A handle returned
by a constructor carries exactly this. -/
structure ResId where
  kind : Kind
  name : String
  deriving DecidableEq, Repr

/-- An output of a declared resource, named by the Go accessor path. -/
structure Ref where
  res : ResId
  path : String
  deriving DecidableEq, Repr

/-- A value given to a resource argument or to an export. -/
inductive Input where
  /-- Literal `pulumi.String`. -/
  | str (s : String)
  /-- Literal `pulumi.Bool`. -/
  | bool (b : Bool)
  /-- Literal `pulumi.Int`. -/
  | int (n : Int)
  /-- Output of another resource. -/
  | out (r : Ref)
  /-- Value wrapped by `pulumi.ToSecret`. -/
  | secret (v : Input)
  /-- Array of inputs (`pulumi.StringArray`, `ec2.RouteTableRouteArray`). -/
  | array (xs : List Input)
  /-- Nested args struct (`&metav1.ObjectMetaArgs{...}`). -/
  | obj (fields : List (String × Input))
  /-- String-keyed map (`pulumi.StringMap`, `pulumi.Map`). -/
  | map (entries : List (String × Input))
  /-- Result of `pulumi.All(srcs...).ApplyT(f)`. -/
  | applyT (srcs : List Input) (f : List GoValue → Result String)

/-- Resource options passed after the args. -/
inductive ResourceOption where
  | DependsOn (rs : List ResId)
  | Provider (p : ResId)
  deriving DecidableEq, Repr

/-- One constructor call: identity, args in source order, options. -/
structure Resource where
  id : ResId
  args : List (String × Input)
  opts : List ResourceOption

/-- State of the `*pulumi.Context` the closure receives: resources registered so
far, in order, and the exports. -/
structure Context where
  resources : List Resource
  exports : List (String × Input)

/-- Context of a fresh `pulumi.Run`. -/
def Context.empty : Context := ⟨[], []⟩

/-- The external collaborators: the outcome of a constructor call (given what is
registered so far and the request), and what `os.ReadFile` returns. -/
structure Env where
  construct : List Resource → Resource → Option GoError
  readFile : String → String × Option GoError

/-- A piece of the closure body: runs on the context, and ends with a value, a
returned error or a panic.  The context reached is kept in all three cases. -/
def Prog (α : Type) : Type := Context → Context × Result α

/-- Sequencing with `if err != nil { return err }`. -/
def Prog.bind {α β : Type} (m : Prog α) (k : α → Prog β) : Prog β := fun ctx =>
  match m ctx with
  | (ctx', .ok a) => k a ctx'
  | (ctx', .error e) => (ctx', .error e)
  | (ctx', .panic msg) => (ctx', .panic msg)

instance : Monad Prog where
  pure a := fun ctx => (ctx, .ok a)
  bind := Prog.bind

/-- A Go runtime panic. -/
def goPanic {α : Type} (msg : String) : Prog α := fun ctx => (ctx, .panic msg)

/-- Slice indexing `xs[i]`, which panics out of range. -/
def index {α : Type} (xs : List α) (i : Nat) : Prog α :=
  match xs[i]? with
  | some x => pure x
  | none => goPanic "index out of range"

/-- A resource constructor: on success the resource is registered and its
handle returned, on failure the error is returned and nothing is registered. -/
def registerResource (env : Env) (kind : Kind) (name : String)
    (args : List (String × Input)) (opts : List ResourceOption) : Prog ResId := fun ctx =>
  let r : Resource := ⟨⟨kind, name⟩, args, opts⟩
  match env.construct ctx.resources r with
  | some e => (ctx, .error e)
  | none => ({ ctx with resources := ctx.resources ++ [r] }, .ok r.id)

/-- Method `ctx.Export(name, value)`: sets the key in the exports map. -/
def Export (name : String) (value : Input) : Prog Unit := fun ctx =>
  ({ ctx with exports := ctx.exports.filter (fun kv => kv.1 ≠ name) ++ [(name, value)] }, .ok ())

def ec2.NewVpc (env : Env) := registerResource env .ec2Vpc
def ec2.NewInternetGateway (env : Env) := registerResource env .ec2InternetGateway
def ec2.NewRouteTable (env : Env) := registerResource env .ec2RouteTable
def ec2.NewSubnet (env : Env) := registerResource env .ec2Subnet
def ec2.NewRouteTableAssociation (env : Env) := registerResource env .ec2RouteTableAssociation
def eks.NewCluster (env : Env) := registerResource env .eksCluster
def iam.NewRole (env : Env) := registerResource env .iamRole
def iam.NewPolicy (env : Env) := registerResource env .iamPolicy
def iam.NewRolePolicyAttachment (env : Env) := registerResource env .iamRolePolicyAttachment
def kubernetes.NewProvider (env : Env) := registerResource env .kubernetesProvider
def corev1.NewNamespace (env : Env) := registerResource env .corev1Namespace
def corev1.NewServiceAccount (env : Env) := registerResource env .corev1ServiceAccount
def helm.NewRelease (env : Env) := registerResource env .helmRelease

/-- Output accessor on a handle, e.g. `cluster.Kubeconfig`. -/
def ResId.output (r : ResId) (path : String) : Input := .out ⟨r, path⟩

/-- Accessor `r.ID()`. -/
def ResId.ID (r : ResId) : Input := r.output "ID"

/-- Function `pulumi.Sprintf` on plain Go operands: an output that resolves to
`fmt.Sprintf` of them. -/
def pulumi.Sprintf (format : String) (args : List GoValue) : Input :=
  .str (InfrastructureGo.Sprintf format args)

def pulumi.ToSecret (v : Input) : Input := .secret v
def pulumi.String (s : String) : Input := .str s
def pulumi.Bool (b : Bool) : Input := .bool b
def pulumi.Int (n : Int) : Input := .int n

/-! ## The closure passed to `pulumi.Run` -/

/-- The format string of the trust policy (a Go raw string; its lines are
indented with tabs). -/
def assumeRolePolicyFormat : String :=
  "\x7b\n" ++
  "\t\t\t\t\t\t\"Version\": \"2012-10-17\",\n" ++
  "\t\t\t\t\t\t\"Statement\": [\n" ++
  "\t\t\t\t\t\t\t\x7b\n" ++
  "\t\t\t\t\t\t\t\t\"Effect\": \"Allow\",\n" ++
  "\t\t\t\t\t\t\t\t\"Principal\": \x7b\n" ++
  "\t\t\t\t\t\t\t\t\t\"Federated\": \"%s\"\n" ++
  "\t\t\t\t\t\t\t\t\x7d,\n" ++
  "\t\t\t\t\t\t\t\t\"Action\": \"sts:AssumeRoleWithWebIdentity\",\n" ++
  "\t\t\t\t\t\t\t\t\"Condition\": \x7b\n" ++
  "\t\t\t\t\t\t\t\t\t\"StringEquals\": \x7b\n" ++
  "\t\t\t\t\t\t\t\t\t\t\"%s:sub\": \"%s\"\n" ++
  "\t\t\t\t\t\t\t\t\t\x7d\n" ++
  "\t\t\t\t\t\t\t\t\x7d\n" ++
  "\t\t\t\t\t\t\t\x7d\n" ++
  "\t\t\t\t\t\t]\n" ++
  "\t\t\t\t\t\x7d"

/-- The closure given to `ApplyT` for `AssumeRolePolicy`.  The type assertions
`args[0].(string)` and `args[1].(string)` panic on a missing or non-string
element; the returned error is always nil. -/
def assumeRolePolicy (args : List GoValue) : Result String :=
  match (args[0]? : Option GoValue) with
  | some (.str arn) =>
    match (args[1]? : Option GoValue) with
    | some (.str url) =>
      .ok (Sprintf assumeRolePolicyFormat [.str arn, .str url, .str albServiceAccount])
    | some _ => .panic "interface conversion: interface {} is not string"
    | none => .panic "index out of range"
  | some _ => .panic "interface conversion: interface {} is not string"
  | none => .panic "index out of range"

/-- The loop `for i, az := range availabilityZones`, from index `i` on, over the
remaining zones; `publicSubnetIDs` is the slice appended to. -/
def subnetLoop (env : Env) (vpc rt : ResId) :
    List String → Nat → List Input → Prog (List Input)
  | [], _, publicSubnetIDs => pure publicSubnetIDs
  | az :: rest, i, publicSubnetIDs => do
    let name := Sprintf "berlin-pug-subnet-%d" [.int i]
    let cidr ← index publicSubnetCidrs i
    let publicSubnet ← ec2.NewSubnet env name
      [ ("VpcId", vpc.ID),
        ("CidrBlock", pulumi.String cidr),
        ("MapPublicIpOnLaunch", pulumi.Bool true),
        ("AssignIpv6AddressOnCreation", pulumi.Bool false),
        ("AvailabilityZone", pulumi.String az),
        ("Tags", .map
          [ ("Name", pulumi.Sprintf "eks-public-subnet-%d" [.str az]),
            (clusterTag, pulumi.String "owned"),
            ("kubernetes.io/role/elb", pulumi.String "1") ]) ] []
    let _ ← ec2.NewRouteTableAssociation env
      (Sprintf "berlin-pug-rt-association-%s" [.str az])
      [ ("RouteTableId", rt.ID),
        ("SubnetId", publicSubnet.ID) ] []
    subnetLoop env vpc rt rest (i + 1) (publicSubnetIDs ++ [publicSubnet.ID])

/-- The closure passed to `pulumi.Run` in `main`. -/
def run (env : Env) : Prog Unit := do
  let vpc ← ec2.NewVpc env "berlin-pug-vpc"
    [ ("CidrBlock", pulumi.String "172.31.0.0/16") ] []
  let igw ← ec2.NewInternetGateway env "berlin-pug-igw"
    [ ("VpcId", vpc.ID) ] []
  let rt ← ec2.NewRouteTable env "berlin-pug-rt"
    [ ("VpcId", vpc.ID),
      ("Routes", .array
        [ .obj
          [ ("CidrBlock", pulumi.String "0.0.0.0/0"),
            ("GatewayId", igw.ID) ] ]) ] []
  let publicSubnetIDs ← subnetLoop env vpc rt availabilityZones 0 []
  let cluster ← eks.NewCluster env clusterName
    [ ("Name", pulumi.String clusterName),
      ("VpcId", vpc.ID),
      ("SubnetIds", .array publicSubnetIDs),
      ("InstanceType", pulumi.String "t3.medium"),
      ("DesiredCapacity", pulumi.Int 2),
      ("MinSize", pulumi.Int 1),
      ("MaxSize", pulumi.Int 3),
      ("ProviderCredentialOpts", .obj
        [ ("ProfileName", pulumi.String "default") ]),
      ("CreateOidcProvider", pulumi.Bool true) ] []
  Export "kubeconfig" (pulumi.ToSecret (cluster.output "Kubeconfig"))
  let albRole ← iam.NewRole env "berlin-pug-alb-role"
    [ ("AssumeRolePolicy", .applyT
        [ cluster.output "Core.OidcProvider.Arn",
          cluster.output "Core.OidcProvider.Url" ]
        assumeRolePolicy) ] []
  let albPolicyFile := (env.readFile "./iam-policies/alb-iam-policy.json").1
  let albIAMPolicy ← iam.NewPolicy env "berlin-pug-alb-policy"
    [ ("Policy", pulumi.String albPolicyFile) ]
    [ .DependsOn [albRole] ]
  let _ ← iam.NewRolePolicyAttachment env "berlin-pug-alb-role-attachment"
    [ ("PolicyArn", albIAMPolicy.output "Arn"),
      ("Role", albRole.output "Name") ]
    [ .DependsOn [albIAMPolicy] ]
  let provider ← kubernetes.NewProvider env "berlin-pug-k8s-provider"
    [ ("Kubeconfig", cluster.output "KubeconfigJson"),
      ("EnableServerSideApply", pulumi.Bool true) ]
    [ .DependsOn [cluster] ]
  let ns ← corev1.NewNamespace env albNamespace
    [ ("Metadata", .obj
        [ ("Name", pulumi.String albNamespace),
          ("Labels", .map
            [ ("app.kubernetes.io/name", pulumi.String "aws-load-balancer-controller") ]) ]) ]
    [ .Provider provider, .DependsOn [cluster] ]
  let sa ← corev1.NewServiceAccount env "aws-lb-controller-sa"
    [ ("Metadata", .obj
        [ ("Name", pulumi.String "aws-lb-controller-serviceaccount"),
          ("Namespace", ns.output "Metadata.Name"),
          ("Annotations", .map
            [ ("eks.amazonaws.com/role-arn", albRole.output "Arn") ]) ]) ]
    [ .Provider provider, .DependsOn [ns, cluster] ]
  let _ ← helm.NewRelease env "aws-load-balancer-controller"
    [ ("Chart", pulumi.String "aws-load-balancer-controller"),
      ("Version", pulumi.String "1.5.3"),
      ("Namespace", ns.output "Metadata.Name"),
      ("RepositoryOpts", .obj
        [ ("Repo", pulumi.String "https://aws.github.io/eks-charts") ]),
      ("Values", .map
        [ ("clusterName", cluster.output "EksCluster.Name"),
          ("region", pulumi.String "eu-central-1"),
          ("serviceAccount", .map
            [ ("create", pulumi.Bool false),
              ("name", sa.output "Metadata.Name") ]),
          ("vpcId", cluster.output "EksCluster.VpcConfig.VpcId"),
          ("podLabels", .map
            [ ("stack", pulumi.String "eks"),
              ("app", pulumi.String "aws-lb-controller") ]) ]) ]
    [ .Provider provider, .DependsOn [ns, sa, cluster] ]
  pure ()

/-- Function `main`: `pulumi.Run` calls the closure on a fresh context. -/
def main (env : Env) : Context × Result Unit := run env Context.empty

/-! ## Observing a run -/

/-- The bytes of the policy file as the closure receives them (the error of
`os.ReadFile` is discarded). -/
def Env.policy (env : Env) : String :=
  (env.readFile "./iam-policies/alb-iam-policy.json").1

/-- The environment in which every constructor succeeds and the policy file
reads as `albPolicyFile`. -/
def Env.succeeding (albPolicyFile : String) : Env :=
  ⟨fun _ _ => none, fun _ => (albPolicyFile, none)⟩

/-- The resources a run declares when every constructor succeeds, in order. -/
def declarations (albPolicyFile : String) : List Resource :=
  (main (Env.succeeding albPolicyFile)).1.resources

/-- Scan of the constructor calls in order: position and error of the first
call that fails, where each call sees the resources registered before it. -/
def firstFailure (construct : List Resource → Resource → Option GoError) :
    List Resource → List Resource → Option (Nat × GoError)
  | _, [] => none
  | done, r :: todo =>
    match construct done r with
    | some e => some (done.length, e)
    | none => firstFailure construct (done ++ [r]) todo

/-- The export made after the cluster is declared. -/
def kubeconfigExport : List (String × Input) :=
  [("kubeconfig", .secret (.out ⟨⟨.eksCluster, clusterName⟩, "Kubeconfig"⟩))]

/-- The secret flag of a value: set by `pulumi.ToSecret`. -/
def Input.isSecret : Input → Bool
  | .secret _ => true
  | _ => false

/-- The boolean map that runs parallel to the exports: key to secret flag. -/
def Context.secretFlags (ctx : Context) : List (String × Bool) :=
  ctx.exports.map fun kv => (kv.1, kv.2.isSecret)

/-- The argument of a resource under a key. -/
def Resource.arg (r : Resource) (key : String) : Option Input :=
  r.args.lookup key

/-- The member of a nested struct or map under a key. -/
def Input.field : Input → String → Option Input
  | .obj fields, key => fields.lookup key
  | .map entries, key => entries.lookup key
  | _, _ => none

/-- The declared resources of one kind, in declaration order. -/
def ofKind (kind : Kind) (rs : List Resource) : List Resource :=
  rs.filter fun r => r.id.kind = kind

/-! ## The dependency graph of the declared resources -/

/-- The resources whose outputs occur in a value. -/
def Input.refs : Input → List ResId
  | .str _ => []
  | .bool _ => []
  | .int _ => []
  | .out r => [r.res]
  | .secret v => v.refs
  | .array xs => refsList xs
  | .obj fields => refsFields fields
  | .map entries => refsFields entries
  | .applyT srcs _ => refsList srcs
where
  /-- References of the elements of an array. -/
  refsList : List Input → List ResId
    | [] => []
    | x :: xs => x.refs ++ refsList xs
  /-- References of the members of a struct or map. -/
  refsFields : List (String × Input) → List ResId
    | [] => []
    | (_, x) :: rest => x.refs ++ refsFields rest

/-- The resources an option names: the provider given, or the `DependsOn` list. -/
def ResourceOption.targets : ResourceOption → List ResId
  | .DependsOn rs => rs
  | .Provider p => [p]

/-- The edges leaving a resource: every resource whose output it uses as an
input, the provider it is given, and every resource in its `DependsOn`. -/
def Resource.dependencies (r : Resource) : List ResId :=
  Input.refs.refsFields r.args ++ (r.opts.map ResourceOption.targets).flatten

/-- The dependency graph: one node per registered resource, in declaration
order, with the targets of its edges. -/
def graph (rs : List Resource) : List (ResId × List ResId) :=
  rs.map fun r => (r.id, r.dependencies)

/-- Every edge points to a node declared strictly earlier. -/
def EdgesPointEarlier (g : List (ResId × List ResId)) : Prop :=
  ∀ j < g.length, ∀ d ∈ ((g[j]?).map Prod.snd).getD [],
    ∃ i < j, (g[i]?).map Prod.fst = some d

instance (g : List (ResId × List ResId)) : Decidable (EdgesPointEarlier g) := by
  unfold EdgesPointEarlier; infer_instance

/-- The layer recorded for a node; 0 when none is recorded. -/
def layerOf (ls : List (ResId × Nat)) (d : ResId) : Nat :=
  match ls.lookup d with
  | some n => n
  | none => 0

/-- The largest layer among the given nodes; 0 when there are none. -/
def maxLayer (ls : List (ResId × Nat)) (ds : List ResId) : Nat :=
  ds.foldl (fun m d => max m (layerOf ls d)) 0

/-- Layer assignment in declaration order: each node gets 1 + the largest
layer of its dependencies, given the layers recorded so far. -/
def assignLayers : List (ResId × List ResId) → List (ResId × Nat) → List (ResId × Nat)
  | [], acc => acc
  | (id, deps) :: rest, acc => assignLayers rest (acc ++ [(id, 1 + maxLayer acc deps)])

/-- The layers of a graph. -/
def layers (g : List (ResId × List ResId)) : List (ResId × Nat) :=
  assignLayers g []

/-- Every node sits in layer 1 + the largest layer of its dependencies, and
every dependency of a node sits in a strictly earlier layer. -/
def LayersRespectEdges (g : List (ResId × List ResId)) : Prop :=
  ∀ nd ∈ g,
    layerOf (layers g) nd.1 = 1 + maxLayer (layers g) nd.2 ∧
    ∀ d ∈ nd.2, layerOf (layers g) d < layerOf (layers g) nd.1

instance (g : List (ResId × List ResId)) : Decidable (LayersRespectEdges g) := by
  unfold LayersRespectEdges; infer_instance

/-! ## The ledger of applied inputs -/

/-- Modelled from the spec: the StackState of sections 3 and 4.4, a ledger keyed
by node id that stores the hash of the inputs last applied for the node.  The
apply engine is not part of `main.go`. -/
def StackState (H : Type) : Type := List (ResId × H)

/-- Modelled from the spec: the ledger saved after a run that applied the
declared resources (section 4.4, `save`). -/
def saveState {H : Type} (hash : Resource → H) (rs : List Resource) : StackState H :=
  rs.map fun r => (r.id, hash r)

/-- Modelled from the spec: section 4.3 step 1 and section 4.4.  A node needs a
provider `create` or `update` when the ledger has no record under its id or
records a different input hash. -/
def needsProviderCall {H : Type} [DecidableEq H] (hash : Resource → H) (prior : StackState H)
    (r : Resource) : Bool :=
  match List.lookup r.id prior with
  | some h => decide (h ≠ hash r)
  | none => true

/-! ## The trust policy document -/

/-- The trust policy as a document with three slots: the Federated principal,
the single key of the StringEquals condition, and the value that key is
compared with. -/
def trustPolicyDocument (federated conditionKey subject : String) : String :=
  "\x7b\n" ++
  "\t\t\t\t\t\t\"Version\": \"2012-10-17\",\n" ++
  "\t\t\t\t\t\t\"Statement\": [\n" ++
  "\t\t\t\t\t\t\t\x7b\n" ++
  "\t\t\t\t\t\t\t\t\"Effect\": \"Allow\",\n" ++
  "\t\t\t\t\t\t\t\t\"Principal\": \x7b\n" ++
  "\t\t\t\t\t\t\t\t\t\"Federated\": \"" ++ federated ++ "\"\n" ++
  "\t\t\t\t\t\t\t\t\x7d,\n" ++
  "\t\t\t\t\t\t\t\t\"Action\": \"sts:AssumeRoleWithWebIdentity\",\n" ++
  "\t\t\t\t\t\t\t\t\"Condition\": \x7b\n" ++
  "\t\t\t\t\t\t\t\t\t\"StringEquals\": \x7b\n" ++
  "\t\t\t\t\t\t\t\t\t\t\"" ++ conditionKey ++ "\": \"" ++ subject ++ "\"\n" ++
  "\t\t\t\t\t\t\t\t\t\x7d\n" ++
  "\t\t\t\t\t\t\t\t\x7d\n" ++
  "\t\t\t\t\t\t\t\x7d\n" ++
  "\t\t\t\t\t\t]\n" ++
  "\t\t\t\t\t\x7d"

/-! ## Names given inside the loop -/

/-- The identity the loop gives the subnet of index `i`. -/
def subnetId (i : Nat) : ResId :=
  ⟨.ec2Subnet, Sprintf "berlin-pug-subnet-%d" [.int i]⟩

/-- The identity the loop gives the route-table association of zone `az`. -/
def associationId (az : String) : ResId :=
  ⟨.ec2RouteTableAssociation, Sprintf "berlin-pug-rt-association-%s" [.str az]⟩

/-! ## Call sites -/

/-- The line of `main.go` on which the constructor of each kind is called; every
kind has exactly one call site.  A resource textually follows another when its
call site is on a later line. -/
def callSite : Kind → Nat
  | .ec2Vpc => 39
  | .ec2InternetGateway => 45
  | .ec2RouteTable => 51
  | .ec2Subnet => 68
  | .ec2RouteTableAssociation => 83
  | .eksCluster => 93
  | .iamRole => 112
  | .iamPolicy => 140
  | .iamRolePolicyAttachment => 146
  | .kubernetesProvider => 154
  | .corev1Namespace => 162
  | .corev1ServiceAccount => 173
  | .helmRelease => 186

/-! ## Sample environments -/

/-- An environment in which the second subnet (the constructor call of the
second loop iteration) is refused and every other constructor succeeds. -/
def Env.secondSubnetRefused : Env :=
  ⟨fun _ r => if r.id = ⟨.ec2Subnet, "berlin-pug-subnet-1"⟩ then some ⟨"subnet quota exceeded"⟩ else none,
   fun _ => ("", none)⟩

/-- An environment in which every constructor succeeds although reading the
policy file reports an error next to the bytes it returns. -/
def Env.readReportsError (albPolicyFile : String) : Env :=
  ⟨fun _ _ => none, fun _ => (albPolicyFile, some ⟨"unexpected EOF"⟩)⟩

/-! ## Sequencing lemmas -/

theorem bind_eq {α β : Type} (m : Prog α) (k : α → Prog β) : (m >>= k) = Prog.bind m k := rfl

theorem pure_apply {α : Type} (a : α) (ctx : Context) : (pure a : Prog α) ctx = (ctx, .ok a) := rfl

theorem pure_bind {α β : Type} (a : α) (k : α → Prog β) : Prog.bind (pure a) k = k a := rfl

theorem bind_assoc {α β γ : Type} (m : Prog α) (f : α → Prog β) (k : β → Prog γ) :
    Prog.bind (Prog.bind m f) k = Prog.bind m (fun a => Prog.bind (f a) k) := by
  funext ctx
  unfold Prog.bind
  rcases m ctx with ⟨ctx', r⟩
  cases r <;> rfl

theorem Export_bind {β : Type} (name : String) (v : Input) (k : Unit → Prog β) (ctx : Context) :
    Prog.bind (Export name v) k ctx =
      k () { ctx with exports := ctx.exports.filter (fun kv => kv.1 ≠ name) ++ [(name, v)] } := rfl

theorem registerResource_bind {β : Type} (env : Env) (kind : Kind) (name : String)
    (args : List (String × Input)) (opts : List ResourceOption) (k : ResId → Prog β)
    (ctx : Context) :
    Prog.bind (registerResource env kind name args opts) k ctx =
      match env.construct ctx.resources ⟨⟨kind, name⟩, args, opts⟩ with
      | some e => (ctx, .error e)
      | none =>
        k ⟨kind, name⟩ { ctx with resources := ctx.resources ++ [⟨⟨kind, name⟩, args, opts⟩] } := by
  cases h : env.construct ctx.resources ⟨⟨kind, name⟩, args, opts⟩ <;>
    simp [Prog.bind, registerResource, h]

/-! ## The run as a scan of its constructor calls -/

set_option maxHeartbeats 4000000 in
set_option maxRecDepth 100000 in
/-- A run is decided by the first failing constructor call: without one it
declares every resource, makes the export and returns nil; with one at position
`k` it has declared the `k` resources before it and returns the error. -/
theorem main_eq (env : Env) :
    main env =
      match firstFailure env.construct [] (declarations env.policy) with
      | none => (⟨declarations env.policy, kubeconfigExport⟩, .ok ())
      | some (k, e) =>
        (⟨(declarations env.policy).take k, if k ≤ 7 then [] else kubeconfigExport⟩, .error e) := by
  simp only [declarations, main, run, bind_eq, subnetLoop, Env.succeeding, Env.policy, bind_assoc,
    pure_bind, registerResource_bind, ec2.NewVpc, ec2.NewInternetGateway, ec2.NewRouteTable,
    ec2.NewSubnet, ec2.NewRouteTableAssociation, eks.NewCluster, iam.NewRole, iam.NewPolicy,
    iam.NewRolePolicyAttachment, kubernetes.NewProvider, corev1.NewNamespace,
    corev1.NewServiceAccount, helm.NewRelease, pure_apply, Context.empty, Export_bind, index,
    availabilityZones, publicSubnetCidrs, List.getElem?_cons_zero, List.getElem?_cons_succ,
    List.nil_append, List.cons_append, firstFailure, List.filter_nil, List.length_cons,
    List.length_nil, List.getElem_cons_zero, List.getElem_cons_succ]
  generalize (env.readFile "./iam-policies/alb-iam-policy.json").1 = p
  repeat (first | rfl | split)

theorem declarations_length (p : String) : (declarations p).length = 15 := rfl

theorem firstFailure_eq_none_iff (c : List Resource → Resource → Option GoError)
    (done todo : List Resource) :
    firstFailure c done todo = none ↔
      ∀ k r, todo[k]? = some r → c (done ++ todo.take k) r = none := by
  induction todo generalizing done with
  | nil => simp [firstFailure]
  | cons r rest ih =>
    unfold firstFailure
    constructor
    · intro h k r' hk
      cases hc : c done r with
      | some e => simp [hc] at h
      | none =>
        simp only [hc] at h
        cases k with
        | zero =>
          simp only [List.getElem?_cons_zero, Option.some.injEq] at hk
          subst hk
          simpa using hc
        | succ k =>
          simp only [List.getElem?_cons_succ] at hk
          have := (ih (done ++ [r])).1 h k r' hk
          simpa using this
    · intro h
      have h0 : c done r = none := by simpa using h 0 r (by simp)
      simp only [h0]
      refine (ih (done ++ [r])).2 ?_
      intro k r' hk
      have := h (k + 1) r' (by simpa using hk)
      simpa using this

theorem firstFailure_eq_some_iff (c : List Resource → Resource → Option GoError)
    (done todo : List Resource) (n : Nat) (e : GoError) :
    firstFailure c done todo = some (n, e) ↔
      ∃ k r, todo[k]? = some r ∧ n = done.length + k ∧ c (done ++ todo.take k) r = some e ∧
        ∀ j r', j < k → todo[j]? = some r' → c (done ++ todo.take j) r' = none := by
  induction todo generalizing done with
  | nil => simp [firstFailure]
  | cons r rest ih =>
    unfold firstFailure
    cases hc : c done r with
    | some e' =>
      simp only [Option.some.injEq, Prod.mk.injEq]
      constructor
      · rintro ⟨rfl, rfl⟩
        exact ⟨0, r, by simp, by simp, by simpa using hc, by intro j r' hj; omega⟩
      · rintro ⟨k, r', hk, hn, hce, hbefore⟩
        cases k with
        | zero =>
          simp only [List.getElem?_cons_zero, Option.some.injEq] at hk
          subst hk
          simp only [List.take_zero, List.append_nil, hc, Option.some.injEq] at hce
          exact ⟨by simpa using hn.symm, hce⟩
        | succ k =>
          have := hbefore 0 r (by omega) (by simp)
          simp [hc] at this
    | none =>
      simp only
      rw [ih (done ++ [r])]
      constructor
      · rintro ⟨k, r', hk, hn, hce, hbefore⟩
        refine ⟨k + 1, r', by simpa using hk, by simp at hn; omega, by simpa using hce, ?_⟩
        intro j r'' hj hjr
        cases j with
        | zero =>
          simp only [List.getElem?_cons_zero, Option.some.injEq] at hjr
          subst hjr
          simpa using hc
        | succ j =>
          have := hbefore j r'' (by omega) (by simpa using hjr)
          simpa using this
      · rintro ⟨k, r', hk, hn, hce, hbefore⟩
        cases k with
        | zero =>
          simp only [List.getElem?_cons_zero, Option.some.injEq] at hk
          subst hk
          simp [hc] at hce
        | succ k =>
          refine ⟨k, r', by simpa using hk, by simp; omega, by simpa using hce, ?_⟩
          intro j r'' hj hjr
          have := hbefore (j + 1) r'' (by omega) (by simpa using hjr)
          simpa using this

/-- A run that returns nil has declared every resource and made the export. -/
theorem main_of_ok (env : Env) (h : (main env).2 = .ok ()) :
    main env = (⟨declarations env.policy, kubeconfigExport⟩, .ok ()) := by
  rw [main_eq] at h ⊢
  cases hf : firstFailure env.construct [] (declarations env.policy) with
  | none => rfl
  | some ke => simp [hf] at h

/-- What a run has declared is an initial segment of the declarations. -/
theorem resources_eq_take (env : Env) :
    ∃ k, k ≤ 15 ∧ (main env).1.resources = (declarations env.policy).take k := by
  rw [main_eq]
  cases hf : firstFailure env.construct [] (declarations env.policy) with
  | none => exact ⟨15, le_refl _, by simp [← declarations_length env.policy]⟩
  | some ke =>
    obtain ⟨k, e⟩ := ke
    obtain ⟨j, r, hj, hk, -, -⟩ := (firstFailure_eq_some_iff _ _ _ _ _).1 hf
    have hlt : j < (declarations env.policy).length := by
      by_contra hge
      rw [List.getElem?_eq_none (by omega)] at hj
      simp at hj
    rw [declarations_length] at hlt
    exact ⟨k, by simp at hk; omega, rfl⟩

theorem declarations_ids (p : String) :
    (declarations p).map (fun r => r.id) = (declarations "").map (fun r => r.id) := rfl

theorem declarations_graph (p : String) : graph (declarations p) = graph (declarations "") := rfl

theorem declarations_ids_nodup (p : String) : ((declarations p).map (fun r => r.id)).Nodup := by
  rw [declarations_ids]
  decide

theorem graph_take (rs : List Resource) (k : Nat) : graph (rs.take k) = (graph rs).take k := by
  simp [graph, List.map_take]

/-- In a ledger saved from resources with pairwise distinct ids, every resource
finds its own hash under its id. -/
theorem lookup_saveState {H : Type} (hash : Resource → H) (rs : List Resource)
    (hnd : (rs.map (fun r => r.id)).Nodup) (r : Resource) (hr : r ∈ rs) :
    List.lookup r.id (saveState hash rs) = some (hash r) := by
  induction rs with
  | nil => simp at hr
  | cons a rest ih =>
    simp only [List.map_cons, List.nodup_cons] at hnd
    rcases List.mem_cons.1 hr with rfl | hmem
    · simp [saveState, List.lookup]
    · have hne : r.id ≠ a.id := by
        intro heq
        exact hnd.1 (heq ▸ List.mem_map_of_mem (fun r => r.id) hmem)
      have hbeq : (r.id == a.id) = false := by simpa using hne
      have := ih hnd.2 hmem
      simpa [saveState, List.lookup, hbeq] using this

/-! ## Lemmas on the formatting loop -/

theorem sprintfChars_literal (l rest : List Char) (args : List GoValue)
    (hl : ∀ c ∈ l, c ≠ '%') :
    sprintfChars (l ++ rest) args = l ++ sprintfChars rest args := by
  induction l with
  | nil => rfl
  | cons c l ih =>
    have hc : c ≠ '%' := hl c (List.mem_cons_self _ _)
    have := ih (fun d hd => hl d (List.mem_cons_of_mem _ hd))
    rw [List.cons_append, sprintfChars.eq_def]
    simp only [if_neg hc, this, List.cons_append]

theorem sprintfChars_string (s : String) (rest : List Char) (args : List GoValue) :
    sprintfChars ('%' :: 's' :: rest) (.str s :: args) = s.toList ++ sprintfChars rest args := by
  simp [sprintfChars, formatVerb]

set_option maxRecDepth 100000 in
set_option maxHeartbeats 4000000 in
theorem assumeRolePolicyFormat_toList :
    assumeRolePolicyFormat.toList =
      ("\x7b\n\t\t\t\t\t\t\"Version\": \"2012-10-17\",\n\t\t\t\t\t\t\"Statement\": [\n\t\t\t\t\t\t\t\x7b\n\t\t\t\t\t\t\t\t\"Effect\": \"Allow\",\n\t\t\t\t\t\t\t\t\"Principal\": \x7b\n\t\t\t\t\t\t\t\t\t\"Federated\": \"").toList ++
        '%' :: 's' ::
      (("\"\n\t\t\t\t\t\t\t\t\x7d,\n\t\t\t\t\t\t\t\t\"Action\": \"sts:AssumeRoleWithWebIdentity\",\n\t\t\t\t\t\t\t\t\"Condition\": \x7b\n\t\t\t\t\t\t\t\t\t\"StringEquals\": \x7b\n\t\t\t\t\t\t\t\t\t\t\"").toList ++
        '%' :: 's' ::
      ((":sub\": \"").toList ++
        '%' :: 's' ::
      (("\"\n\t\t\t\t\t\t\t\t\t\x7d\n\t\t\t\t\t\t\t\t\x7d\n\t\t\t\t\t\t\t\x7d\n\t\t\t\t\t\t]\n\t\t\t\t\t\x7d").toList ++ []))) := by
  decide

set_option maxRecDepth 100000 in
/-- The closure on two strings: the document with the Federated principal
`arn`, the condition key `url` followed by ":sub", and the given subject. -/
theorem assumeRolePolicy_strings (arn url : String) :
    assumeRolePolicy [.str arn, .str url] =
      .ok (trustPolicyDocument arn (url ++ ":sub") albServiceAccount) := by
  simp only [assumeRolePolicy, List.getElem?_cons_zero, List.getElem?_cons_succ, Result.ok.injEq]
  apply String.ext
  unfold Sprintf
  rw [assumeRolePolicyFormat_toList]
  rw [sprintfChars_literal _ _ _ (by decide), sprintfChars_string,
    sprintfChars_literal _ _ _ (by decide), sprintfChars_string,
    sprintfChars_literal _ _ _ (by decide), sprintfChars_string,
    sprintfChars_literal _ _ _ (by decide)]
  simp only [trustPolicyDocument, String.data_append, List.append_assoc, String.toList]
  generalize arn.data = a
  generalize url.data = u
  rfl

/-- A run never panics: the slice index in the loop is always in range. -/
theorem main_ne_panic (env : Env) (msg : String) : (main env).2 ≠ .panic msg := by
  rw [main_eq]
  cases firstFailure env.construct [] (declarations env.policy) with
  | none => simp
  | some ke => simp

/-! ## The claims -/

/-- C1: the export surface of the run holds exactly one key, "kubeconfig", whose
value is the Kubeconfig output of the declared cluster wrapped by
`pulumi.ToSecret` (secret flag true).  On every path no export is in plaintext
and no other key is exported; on every path that reaches the end of the closure
the exports are exactly that one entry. -/
theorem export_surface_kubeconfig_secret (env : Env) :
    (∀ kv ∈ (main env).1.exports,
      kv = ("kubeconfig", pulumi.ToSecret (ResId.output ⟨.eksCluster, clusterName⟩ "Kubeconfig")) ∧
        kv.2.isSecret = true) ∧
    ((main env).2 = .ok () →
      (main env).1.exports =
          [("kubeconfig", pulumi.ToSecret (ResId.output ⟨.eksCluster, clusterName⟩ "Kubeconfig"))] ∧
        (main env).1.secretFlags = [("kubeconfig", true)] ∧
        (ofKind .eksCluster (main env).1.resources).map (fun r => r.id) =
          [⟨.eksCluster, clusterName⟩]) := by
  constructor
  · rw [main_eq]
    cases firstFailure env.construct [] (declarations env.policy) with
    | none =>
      intro kv hkv
      simp only [kubeconfigExport, List.mem_singleton] at hkv
      subst hkv
      exact ⟨rfl, rfl⟩
    | some ke =>
      obtain ⟨k, e⟩ := ke
      intro kv hkv
      by_cases hk : k ≤ 7
      · simp [hk] at hkv
      · simp only [hk, if_false, kubeconfigExport, List.mem_singleton] at hkv
        subst hkv
        exact ⟨rfl, rfl⟩
  · intro h
    rw [main_of_ok env h]
    exact ⟨rfl, rfl, rfl⟩

theorem export_surface_kubeconfig_secret_witness :
    (main (Env.succeeding "")).2 = .ok () ∧
      (main (Env.succeeding "")).1.secretFlags = [("kubeconfig", true)] :=
  ⟨rfl, ((export_surface_kubeconfig_secret (Env.succeeding "")).2 rfl).2.1⟩

/-- C2: in the dependency graph of the resources a run has registered (an edge
from a resource to every resource whose output it uses, to its provider and to
every resource in its DependsOn), every edge points to a resource declared
strictly earlier, so the graph is acyclic; and the assignment "layer = 1 + max
layer of the dependencies" puts every dependency of a node in a strictly
earlier layer. -/
theorem dependency_graph_acyclic (env : Env) :
    EdgesPointEarlier (graph (main env).1.resources) ∧
      LayersRespectEdges (graph (main env).1.resources) := by
  obtain ⟨k, hk, hres⟩ := resources_eq_take env
  rw [hres, graph_take, declarations_graph]
  have hall : ∀ k ≤ 15, EdgesPointEarlier ((graph (declarations "")).take k) ∧
      LayersRespectEdges ((graph (declarations "")).take k) := by
    set_option maxRecDepth 100000 in decide
  exact hall k hk

/-- C3 (amended): if a constructor called by the run returns an error (the call
at position `k` of the sequence of constructor calls, reached because every call
before it succeeded), the run returns that same error at once and makes no
later call: the resources declared are exactly the `k` declared before the
failing call in execution order, none whose call comes after it.  The run
returns nil only if every constructor call succeeded. -/
theorem constructor_error_returned (env : Env) :
    (∀ k r e, (declarations env.policy)[k]? = some r →
      (∀ j r', j < k → (declarations env.policy)[j]? = some r' →
        env.construct ((declarations env.policy).take j) r' = none) →
      env.construct ((declarations env.policy).take k) r = some e →
      (main env).2 = .error e ∧ (main env).1.resources = (declarations env.policy).take k) ∧
    ((main env).2 = .ok () →
      ∀ k r, (declarations env.policy)[k]? = some r →
        env.construct ((declarations env.policy).take k) r = none) := by
  constructor
  · intro k r e hk hbefore hfail
    have hf : firstFailure env.construct [] (declarations env.policy) = some (k, e) :=
      (firstFailure_eq_some_iff _ _ _ _ _).2
        ⟨k, r, hk, by simp, by simpa using hfail, by simpa using hbefore⟩
    rw [main_eq, hf]
    exact ⟨rfl, rfl⟩
  · intro h k r hk
    rw [main_eq] at h
    cases hf : firstFailure env.construct [] (declarations env.policy) with
    | none => simpa using (firstFailure_eq_none_iff _ _ _).1 hf k r hk
    | some ke => simp [hf] at h

set_option maxRecDepth 100000 in
theorem constructor_error_returned_witness :
    ((main Env.secondSubnetRefused).2 = .error ⟨"subnet quota exceeded"⟩ ∧
      (main Env.secondSubnetRefused).1.resources.map (fun r => r.id.name) =
        ["berlin-pug-vpc", "berlin-pug-igw", "berlin-pug-rt", "berlin-pug-subnet-0",
          "berlin-pug-rt-association-eu-central-1a"]) ∧
    ((main (Env.succeeding "")).2 = .ok () ∧
      ∀ k r, (declarations (Env.succeeding "").policy)[k]? = some r →
        (Env.succeeding "").construct ((declarations (Env.succeeding "").policy).take k) r = none) := by
  refine ⟨?_, rfl, (constructor_error_returned (Env.succeeding "")).2 rfl⟩
  have h := (constructor_error_returned Env.secondSubnetRefused).1 5
    ⟨⟨.ec2Subnet, "berlin-pug-subnet-1"⟩,
      [ ("VpcId", ResId.ID ⟨.ec2Vpc, "berlin-pug-vpc"⟩),
        ("CidrBlock", pulumi.String "172.31.48.0/20"),
        ("MapPublicIpOnLaunch", pulumi.Bool true),
        ("AssignIpv6AddressOnCreation", pulumi.Bool false),
        ("AvailabilityZone", pulumi.String "eu-central-1b"),
        ("Tags", .map
          [ ("Name", pulumi.Sprintf "eks-public-subnet-%d" [.str "eu-central-1b"]),
            (clusterTag, pulumi.String "owned"),
            ("kubernetes.io/role/elb", pulumi.String "1") ]) ], []⟩
    ⟨"subnet quota exceeded"⟩ rfl
    (by
      intro j r' hj hr'
      have hid : (((declarations Env.secondSubnetRefused.policy)[j]?).map fun r => r.id) = some r'.id := by
        rw [hr']; rfl
      have hne : r'.id ≠ ⟨.ec2Subnet, "berlin-pug-subnet-1"⟩ := by
        intro heq
        rw [heq] at hid
        interval_cases j <;> revert hid <;> decide
      simp [Env.secondSubnetRefused, hne])
    rfl
  exact ⟨h.1, by rw [h.2]; rfl⟩

set_option maxRecDepth 100000 in
/-- C3 as worded fails inside the loop: when the constructor of the second
subnet (called on line 68) returns an error, the run returns that error, yet
the association of the first iteration is declared, and its constructor call
(line 83) textually follows the failing one. -/
theorem textual_order_counterexample :
    (((declarations "")[5]?).map fun r => r.id) = some ⟨.ec2Subnet, "berlin-pug-subnet-1"⟩ ∧
    ((declarations "")[5]?).bind
        (Env.secondSubnetRefused.construct ((declarations "").take 5)) =
      some ⟨"subnet quota exceeded"⟩ ∧
    (main Env.secondSubnetRefused).2 = .error ⟨"subnet quota exceeded"⟩ ∧
    (main Env.secondSubnetRefused).1.resources.map (fun r => (r.id.name, callSite r.id.kind)) =
      [ ("berlin-pug-vpc", 39), ("berlin-pug-igw", 45), ("berlin-pug-rt", 51),
        ("berlin-pug-subnet-0", 68), ("berlin-pug-rt-association-eu-central-1a", 83) ] ∧
    ¬ ∀ r ∈ (main Env.secondSubnetRefused).1.resources,
        ¬ callSite .ec2Subnet < callSite r.id.kind := by
  refine ⟨rfl, rfl, rfl, rfl, ?_⟩
  intro hall
  have hany : ((main Env.secondSubnetRefused).1.resources.any
      fun r => decide (callSite .ec2Subnet < callSite r.id.kind)) = true := rfl
  obtain ⟨r, hr, hlt⟩ := List.any_eq_true.1 hany
  exact hall r hr (of_decide_eq_true hlt)

/-- C4: two runs that read the same policy file contents and whose constructors
all succeed declare the identical sequence of resources (names, kinds, literal
inputs, output references, DependsOn) and the identical exports; hence, for
every input hash, each node of the second run finds its own hash in the ledger
saved by the first run under its id, and needs no provider create or update. -/
theorem rerun_declares_same_inputs (env₁ env₂ : Env) (hp : env₁.policy = env₂.policy)
    (h₁ : (main env₁).2 = .ok ()) (h₂ : (main env₂).2 = .ok ()) :
    (main env₁).1.resources = (main env₂).1.resources ∧
      (main env₁).1.exports = (main env₂).1.exports ∧
      ∀ (H : Type) [DecidableEq H] (hash : Resource → H),
        (∀ r ∈ (main env₂).1.resources,
          List.lookup r.id (saveState hash (main env₁).1.resources) = some (hash r)) ∧
        (main env₂).1.resources.filter
          (needsProviderCall hash (saveState hash (main env₁).1.resources)) = [] := by
  rw [main_of_ok env₁ h₁, main_of_ok env₂ h₂, hp]
  refine ⟨rfl, rfl, ?_⟩
  intro H _ hash
  have hl : ∀ r ∈ declarations env₂.policy,
      List.lookup r.id (saveState hash (declarations env₂.policy)) = some (hash r) :=
    fun r hr => lookup_saveState hash _ (declarations_ids_nodup _) r hr
  refine ⟨hl, ?_⟩
  rw [List.filter_eq_nil_iff]
  intro r hr
  simp [needsProviderCall, hl r hr]

theorem rerun_declares_same_inputs_witness :
    ((Env.succeeding "policy-v1").policy = (Env.readReportsError "policy-v1").policy ∧
      (main (Env.succeeding "policy-v1")).2 = .ok () ∧ (main (Env.readReportsError "policy-v1")).2 = .ok ()) ∧
    (main (Env.succeeding "policy-v1")).1.resources = (main (Env.readReportsError "policy-v1")).1.resources :=
  ⟨⟨rfl, rfl, rfl⟩,
    (rerun_declares_same_inputs (Env.succeeding "policy-v1") (Env.readReportsError "policy-v1") rfl rfl rfl).1⟩

set_option maxRecDepth 100000 in
/-- C5: both lists have the same length and the run never panics on the index;
in a run whose constructors succeed the subnets are, index by index over
`availabilityZones`, exactly one subnet "berlin-pug-subnet-i" in the VPC with
AvailabilityZone `availabilityZones[i]` and CidrBlock `publicSubnetCidrs[i]`,
the route-table associations are exactly one per index joining that subnet to
the route table, and the cluster's SubnetIds is the list of the subnets' IDs in
zone order, as many as there are zones. -/
theorem subnet_per_zone (env : Env) :
    availabilityZones.length = publicSubnetCidrs.length ∧
    (∀ msg, (main env).2 ≠ .panic msg) ∧
    ((main env).2 = .ok () →
      (ofKind .ec2Vpc (main env).1.resources).map (fun r => r.id) =
        [⟨.ec2Vpc, "berlin-pug-vpc"⟩] ∧
      (ofKind .ec2RouteTable (main env).1.resources).map (fun r => r.id) =
        [⟨.ec2RouteTable, "berlin-pug-rt"⟩] ∧
      (ofKind .ec2Subnet (main env).1.resources).map
          (fun r => (r.id.name, r.arg "VpcId", r.arg "AvailabilityZone", r.arg "CidrBlock")) =
        (List.range availabilityZones.length).map (fun i =>
          ("berlin-pug-subnet-" ++ toString i,
            some (ResId.ID ⟨.ec2Vpc, "berlin-pug-vpc"⟩),
            (availabilityZones[i]?).map pulumi.String,
            (publicSubnetCidrs[i]?).map pulumi.String)) ∧
      (ofKind .ec2RouteTableAssociation (main env).1.resources).map
          (fun r => (r.arg "RouteTableId", r.arg "SubnetId")) =
        (List.range availabilityZones.length).map (fun i =>
          (some (ResId.ID ⟨.ec2RouteTable, "berlin-pug-rt"⟩),
            some (ResId.ID ⟨.ec2Subnet, "berlin-pug-subnet-" ++ toString i⟩))) ∧
      ∃ ids : List Input,
        (ofKind .eksCluster (main env).1.resources).map (fun r => r.arg "SubnetIds") =
          [some (.array ids)] ∧
        ids = (List.range availabilityZones.length).map (fun i =>
          ResId.ID ⟨.ec2Subnet, "berlin-pug-subnet-" ++ toString i⟩) ∧
        ids.length = availabilityZones.length) := by
  refine ⟨rfl, main_ne_panic env, ?_⟩
  intro h
  rw [main_of_ok env h]
  exact ⟨rfl, rfl, rfl, rfl, _, rfl, rfl, rfl⟩

theorem subnet_per_zone_witness :
    (main (Env.succeeding "")).2 = .ok () ∧
      (ofKind .ec2Subnet (main (Env.succeeding "")).1.resources).map
          (fun r => (r.id.name, r.arg "VpcId", r.arg "AvailabilityZone", r.arg "CidrBlock")) =
        (List.range availabilityZones.length).map (fun i =>
          ("berlin-pug-subnet-" ++ toString i,
            some (ResId.ID ⟨.ec2Vpc, "berlin-pug-vpc"⟩),
            (availabilityZones[i]?).map pulumi.String,
            (publicSubnetCidrs[i]?).map pulumi.String)) :=
  ⟨rfl, ((subnet_per_zone (Env.succeeding "")).2.2 rfl).2.2.1⟩

/-- C6: in a run whose constructors succeed, the role's AssumeRolePolicy is the
closure applied to the Arn and Url outputs of the cluster's OIDC provider; and
on every pair of strings `arn`, `url` the closure returns, with a nil error and
without panicking, the policy document whose Federated principal is `arn` and
whose single StringEquals condition key is `url` followed by ":sub". -/
theorem trust_policy_from_oidc_outputs (env : Env) (h : (main env).2 = .ok ())
    (arn url : String) :
    (ofKind .iamRole (main env).1.resources).map (fun r => r.arg "AssumeRolePolicy") =
      [some (.applyT
        [ ResId.output ⟨.eksCluster, clusterName⟩ "Core.OidcProvider.Arn",
          ResId.output ⟨.eksCluster, clusterName⟩ "Core.OidcProvider.Url" ]
        assumeRolePolicy)] ∧
    assumeRolePolicy [.str arn, .str url] =
      .ok (trustPolicyDocument arn (url ++ ":sub") albServiceAccount) ∧
    (∀ e, assumeRolePolicy [.str arn, .str url] ≠ .error e) ∧
    (∀ msg, assumeRolePolicy [.str arn, .str url] ≠ .panic msg) := by
  rw [main_of_ok env h, assumeRolePolicy_strings]
  exact ⟨rfl, rfl, by simp, by simp⟩

theorem trust_policy_from_oidc_outputs_witness :
    (main (Env.succeeding "")).2 = .ok () ∧
      assumeRolePolicy
          [.str "arn:aws:iam::1:oidc-provider/oidc.eks", .str "oidc.eks.eu-central-1.amazonaws.com/id/A"] =
        .ok (trustPolicyDocument "arn:aws:iam::1:oidc-provider/oidc.eks"
          ("oidc.eks.eu-central-1.amazonaws.com/id/A" ++ ":sub") albServiceAccount) :=
  ⟨rfl, (trust_policy_from_oidc_outputs (Env.succeeding "") rfl
    "arn:aws:iam::1:oidc-provider/oidc.eks" "oidc.eks.eu-central-1.amazonaws.com/id/A").2.1⟩

set_option maxRecDepth 100000 in
/-- C7: the resources a run has declared have pairwise distinct identities
(kind and name); the entries of `availabilityZones` are pairwise distinct; the
subnets are named by index and the associations by zone, so that distinct
association identities require distinct zones. -/
theorem node_identities_distinct (env : Env) :
    ((main env).1.resources.map (fun r => r.id)).Nodup ∧
    availabilityZones.Nodup ∧
    (∀ zones : List String, (zones.map associationId).Nodup → zones.Nodup) ∧
    ((main env).2 = .ok () →
      (ofKind .ec2Subnet (main env).1.resources).map (fun r => r.id) =
        (List.range availabilityZones.length).map subnetId ∧
      (ofKind .ec2RouteTableAssociation (main env).1.resources).map (fun r => r.id) =
        availabilityZones.map associationId) := by
  refine ⟨?_, by decide, fun zones hz => hz.of_map _, ?_⟩
  · obtain ⟨k, -, hres⟩ := resources_eq_take env
    rw [hres, List.map_take]
    exact (declarations_ids_nodup _).sublist (List.take_sublist _ _)
  · intro h
    rw [main_of_ok env h]
    exact ⟨rfl, rfl⟩

theorem node_identities_distinct_witness :
    (main (Env.succeeding "")).2 = .ok () ∧
      (ofKind .ec2RouteTableAssociation (main (Env.succeeding "")).1.resources).map
          (fun r => r.id) =
        availabilityZones.map associationId :=
  ⟨rfl, ((node_identities_distinct (Env.succeeding "")).2.2.2 rfl).2⟩

set_option maxRecDepth 100000 in
/-- C8: in a run whose constructors succeed there is one namespace, one service
account, one role and one Helm release; with N the metadata name of the
namespace and S the metadata name of the service account (declared in that
namespace and annotated with the role's ARN), the constant `albServiceAccount`,
which is the value the trust policy compares with "url:sub", equals
"system:serviceaccount:" + N + ":" + S; and the Helm release is installed in
namespace N and uses service account S without creating one. -/
theorem trust_subject_matches_service_account (env : Env) (h : (main env).2 = .ok ()) :
    ∃ (ns sa role release : Resource) (N S : String),
      ofKind .corev1Namespace (main env).1.resources = [ns] ∧
      ofKind .corev1ServiceAccount (main env).1.resources = [sa] ∧
      ofKind .iamRole (main env).1.resources = [role] ∧
      ofKind .helmRelease (main env).1.resources = [release] ∧
      (ns.arg "Metadata").bind (fun m => m.field "Name") = some (pulumi.String N) ∧
      (sa.arg "Metadata").bind (fun m => m.field "Name") = some (pulumi.String S) ∧
      (sa.arg "Metadata").bind (fun m => m.field "Namespace") =
        some (ns.id.output "Metadata.Name") ∧
      ((sa.arg "Metadata").bind (fun m => m.field "Annotations")).bind
          (fun a => a.field "eks.amazonaws.com/role-arn") =
        some (role.id.output "Arn") ∧
      albServiceAccount = "system:serviceaccount:" ++ N ++ ":" ++ S ∧
      (∃ srcs, role.arg "AssumeRolePolicy" = some (.applyT srcs assumeRolePolicy)) ∧
      (∀ arn url : String,
        assumeRolePolicy [.str arn, .str url] =
          .ok (trustPolicyDocument arn (url ++ ":sub")
            ("system:serviceaccount:" ++ N ++ ":" ++ S))) ∧
      release.arg "Namespace" = some (ns.id.output "Metadata.Name") ∧
      (release.arg "Values").bind (fun v => v.field "serviceAccount") =
        some (.map [("create", pulumi.Bool false), ("name", sa.id.output "Metadata.Name")]) := by
  rw [main_of_ok env h]
  refine ⟨_, _, _, _, "aws-lb-controller", "aws-lb-controller-serviceaccount",
    rfl, rfl, rfl, rfl, rfl, rfl, rfl, rfl, by decide, ⟨_, rfl⟩, ?_, rfl, rfl⟩
  intro arn url
  rw [assumeRolePolicy_strings]
  have hs : albServiceAccount =
      "system:serviceaccount:" ++ "aws-lb-controller" ++ ":" ++ "aws-lb-controller-serviceaccount" := by
    decide
  rw [hs]

theorem trust_subject_matches_service_account_witness :
    (main (Env.succeeding "")).2 = .ok () ∧
      ∃ (ns sa role release : Resource) (N S : String),
        ofKind .corev1Namespace (main (Env.succeeding "")).1.resources = [ns] ∧
        ofKind .corev1ServiceAccount (main (Env.succeeding "")).1.resources = [sa] ∧
        ofKind .iamRole (main (Env.succeeding "")).1.resources = [role] ∧
        ofKind .helmRelease (main (Env.succeeding "")).1.resources = [release] ∧
        (ns.arg "Metadata").bind (fun m => m.field "Name") = some (pulumi.String N) ∧
        (sa.arg "Metadata").bind (fun m => m.field "Name") = some (pulumi.String S) ∧
        albServiceAccount = "system:serviceaccount:" ++ N ++ ":" ++ S := by
  refine ⟨rfl, ?_⟩
  obtain ⟨ns, sa, role, release, N, S, h1, h2, h3, h4, h5, h6, -, -, h9, -⟩ :=
    trust_subject_matches_service_account (Env.succeeding "") rfl
  exact ⟨ns, sa, role, release, N, S, h1, h2, h3, h4, h5, h6, h9⟩

set_option maxRecDepth 100000 in
/-- C9 (as the code behaves): the "Name" tag is built with the verb `%d` on the
zone, a string, so `fmt` renders a bad-verb marker: the tags declared for the
two subnets are "eks-public-subnet-%!d(string=eu-central-1a)" and
"eks-public-subnet-%!d(string=eu-central-1b)", not "eks-public-subnet-" followed
by the zone.  The two other tags are as claimed. -/
theorem subnet_name_tag_bad_verb :
    (ofKind .ec2Subnet (main (Env.succeeding "")).1.resources).map
        (fun r => (r.arg "Tags").bind (fun t => t.field "Name")) =
      [ some (pulumi.String "eks-public-subnet-%!d(string=eu-central-1a)"),
        some (pulumi.String "eks-public-subnet-%!d(string=eu-central-1b)") ] ∧
    Sprintf "eks-public-subnet-%d" [.str "eu-central-1a"] ≠ "eks-public-subnet-" ++ "eu-central-1a" ∧
    Sprintf "eks-public-subnet-%s" [.str "eu-central-1a"] = "eks-public-subnet-" ++ "eu-central-1a" ∧
    (ofKind .ec2Subnet (main (Env.succeeding "")).1.resources).map
        (fun r => ((r.arg "Tags").bind (fun t => t.field "kubernetes.io/cluster/berlin-pug-eks-cluster"),
          (r.arg "Tags").bind (fun t => t.field "kubernetes.io/role/elb"))) =
      [ (some (pulumi.String "owned"), some (pulumi.String "1")),
        (some (pulumi.String "owned"), some (pulumi.String "1")) ] := by
  refine ⟨rfl, by decide, by decide, rfl⟩

end InfrastructureGo
